import Mathlib

/-!
Shallow embedding of the synctui reconciliation engine
(`src/tui/state.rs` and the folder-creation path of `src/tui/app.rs`).

Pure data is translated to Lean structures; the stateful store
(`InnerState` behind the `RwLock`) becomes explicit state passing; each
background worker step (`listen_to_reload`, `handle_event`) becomes a
function from the current store and the gateway's responses to the next
store together with the observable side effects (gateway calls, enqueued
reload jobs, "view changed" notifications, panics).  Completion
percentages, `f64` in the source, are modelled as rationals: the code
only ever assigns them and compares them with `100.0`.
-/

namespace Synctui

/-- `syncthing_rs::types::config::FolderDeviceConfiguration`. -/
structure FolderDeviceConfiguration where
  device_id : String
  introduced_by : String
  encryption_password : String
  deriving DecidableEq, Repr

/-- `syncthing_rs::types::config::FolderConfiguration` (the fields this
repository touches: `id`, `label`, `path`, `devices`). -/
structure FolderConfiguration where
  id : String
  label : String
  path : String
  devices : List FolderDeviceConfiguration
  deriving DecidableEq, Repr

/-- `syncthing_rs::types::config::DeviceConfiguration` (fields used:
`device_id`, `name`). -/
structure DeviceConfiguration where
  device_id : String
  name : String
  deriving DecidableEq, Repr

/-- `syncthing_rs::types::config::Configuration`. -/
structure Configuration where
  folders : List FolderConfiguration
  devices : List DeviceConfiguration
  deriving DecidableEq, Repr

/-- `syncthing_rs` `NewDeviceConfiguration`: built with `new(id)` and the
`name(..)` builder; read back through `get_device_id` / `get_name`. -/
structure NewDeviceConfiguration where
  device_id : String
  name : Option String
  deriving DecidableEq, Repr

def NewDeviceConfiguration.new (device_id : String) : NewDeviceConfiguration :=
  ⟨device_id, none⟩

/-- The `.name(..)` builder method. -/
def NewDeviceConfiguration.name_builder (d : NewDeviceConfiguration) (n : String) :
    NewDeviceConfiguration :=
  { d with name := some n }

def NewDeviceConfiguration.get_device_id (d : NewDeviceConfiguration) : String :=
  d.device_id

def NewDeviceConfiguration.get_name (d : NewDeviceConfiguration) : Option String :=
  d.name

/-- `syncthing_rs` `NewFolderConfiguration`: built with `new(id, path)`
and the `label(..)` builder. -/
structure NewFolderConfiguration where
  id : String
  path : String
  label : Option String
  deriving DecidableEq, Repr

def NewFolderConfiguration.new (id path : String) : NewFolderConfiguration :=
  ⟨id, path, none⟩

/-- The `.label(..)` builder method. -/
def NewFolderConfiguration.label_builder (f : NewFolderConfiguration) (l : String) :
    NewFolderConfiguration :=
  { f with label := some l }

def NewFolderConfiguration.get_label (f : NewFolderConfiguration) : Option String :=
  f.label

/-- One entry of `api::cluster::PendingDevices` (the `name` field is the
only one this repository reads). -/
structure PendingDeviceInfo where
  name : String
  deriving DecidableEq, Repr

/-- `api::cluster::PendingDevices`: a map from device ID to info,
modelled as an association list in the daemon's iteration order. -/
structure PendingDevices where
  devices : List (String × PendingDeviceInfo)
  deriving DecidableEq, Repr

/-- One offerer entry inside `api::cluster::PendingFolders`. -/
structure PendingFolderOfferer where
  label : String
  deriving DecidableEq, Repr

/-- One entry of `api::cluster::PendingFolders`: who offered it. -/
structure PendingFolderInfo where
  offered_by : List (String × PendingFolderOfferer)
  deriving DecidableEq, Repr

/-- `api::cluster::PendingFolders`. -/
structure PendingFolders where
  folders : List (String × PendingFolderInfo)
  deriving DecidableEq, Repr

/-- One entry of the `GET /connections` response. -/
structure ConnectionInfo where
  connected : Bool
  deriving DecidableEq, Repr

/-- The `GET /connections` response: device ID to connection info. -/
structure Connections where
  connections : List (String × ConnectionInfo)
  deriving DecidableEq, Repr

/-- The `GET /db/completion` response (`completion.completion`). -/
structure CompletionInfo where
  completion : ℚ
  deriving DecidableEq, Repr

/-- An error coming back from the `syncthing_rs` client, opaque to this
repository beyond being loggable and convertible into `AppError`. -/
structure GatewayErr where
  msg : String
  deriving DecidableEq, Repr

/-- `crate::error::AppError`, restricted to the constructors the
reconciliation engine can produce. -/
inductive AppError where
  | DuplicateFolderID
  | UnknownFolder
  | UnknownDevice
  | SyncthingError (e : GatewayErr)
  | APIError (e : GatewayErr)
  deriving DecidableEq, Repr

/-- `tui::state::Reload`. -/
inductive Reload where
  | ID
  | Configuration
  | PendingDevices
  | PendingFolders
  | Connections
  | Completion (folder_id : Option String) (device_id : Option String)
  deriving DecidableEq, Repr

/-- `tui::state::DeviceStatus`. -/
inductive DeviceStatus where
  | UpToDate
  | Syncing (percentage : ℚ)
  | Disconnected
  deriving DecidableEq, Repr

/-- `tui::state::Device`. -/
structure Device where
  config : DeviceConfiguration
  connected : DeviceStatus
  deriving DecidableEq, Repr

/-- `tui::state::Folder`. -/
structure Folder where
  config : FolderConfiguration
  completion : ℚ
  deriving DecidableEq, Repr

/-- `impl From<DeviceConfiguration> for Device`. -/
def Device.fromConfiguration (value : DeviceConfiguration) : Device :=
  { config := value, connected := DeviceStatus.Disconnected }

/-- `impl From<FolderConfiguration> for Folder`. -/
def Folder.fromConfiguration (folder : FolderConfiguration) : Folder :=
  { config := folder, completion := 100 }

/-- `syncthing_rs::types::events::EventType`, restricted to the variants
`State::handle_event` matches on (everything else falls into `Other`). -/
inductive EventType where
  | ConfigSaved
  | DeviceConnected (id : String)
  | DeviceDisconnected (id : String)
  | PendingDevicesChanged
  | PendingFoldersChanged
  | RemoteDownloadProgress (device : String)
  | Other
  deriving DecidableEq, Repr

/-- `tui::state::InnerState`. -/
structure InnerState where
  folders : List Folder
  devices : List Device
  pending_folders : List (String × NewFolderConfiguration)
  pending_devices : List NewDeviceConfiguration
  events : List EventType
  error : Option AppError
  id : String
  deriving DecidableEq, Repr

/-- `InnerState::default()`. -/
def InnerState.default : InnerState :=
  { folders := [], devices := [], pending_folders := [], pending_devices := [],
    events := [], error := none, id := "" }

/-- `iter_mut().find(p)` followed by a mutation `f` of the found element:
returns the updated list together with the updated element, or `none`
when no element matches (the `Err(AppError::Unknown…)` case of
`get_device_mut` / `get_folder_mut`). -/
def updateFirstGet (p : α → Bool) (f : α → α) : List α → Option (List α × α)
  | [] => none
  | x :: xs =>
    if p x then some (f x :: xs, f x)
    else (updateFirstGet p f xs).map (fun r => (x :: r.1, r.2))

/-- `InnerState::update_from_configuration`. -/
def InnerState.update_from_configuration (s : InnerState)
    (configuration : Configuration) : InnerState :=
  { s with
    devices := configuration.devices.foldl
      (fun acc device => acc ++ [Device.fromConfiguration device]) [],
    folders := configuration.folders.foldl
      (fun acc folder => acc ++ [Folder.fromConfiguration folder]) [] }

/-- `InnerState::set_pending_devices`. -/
def InnerState.set_pending_devices (s : InnerState)
    (pending_devices : PendingDevices) : InnerState :=
  let pd := pending_devices.devices.foldl
    (fun acc p =>
      acc ++ [(NewDeviceConfiguration.new p.1).name_builder p.2.name]) []
  { s with pending_devices := pd }

/-- `InnerState::set_pending_folders`. -/
def InnerState.set_pending_folders (s : InnerState)
    (pending_folders : PendingFolders) : InnerState :=
  let pf := pending_folders.folders.foldl
    (fun acc p =>
      p.2.offered_by.foldl
        (fun acc2 q =>
          acc2 ++ [(q.1, (NewFolderConfiguration.new p.1 "?").label_builder q.2.label)])
        acc)
    []
  { s with pending_folders := pf }

/-- `InnerState::get_device`. -/
def InnerState.get_device (s : InnerState) (device_id : String) :
    Except AppError Device :=
  match s.devices.find? (fun d => d.config.device_id == device_id) with
  | some d => .ok d
  | none => .error AppError.UnknownDevice

/-- `InnerState::get_folder`. -/
def InnerState.get_folder (s : InnerState) (folder_id : String) :
    Except AppError Folder :=
  match s.folders.find? (fun f => f.config.id == folder_id) with
  | some f => .ok f
  | none => .error AppError.UnknownFolder

/-- `InnerState::get_pending_device`. -/
def InnerState.get_pending_device (s : InnerState) (device_id : String) :
    Except AppError NewDeviceConfiguration :=
  match s.pending_devices.find? (fun d => d.get_device_id == device_id) with
  | some d => .ok d
  | none => .error AppError.UnknownDevice

/-- The responses the remote gateway (the `syncthing_rs::Client`) would
give to each fetch the reload worker can perform.  The worker is a pure
function of the store and this record. -/
structure Gateway where
  get_configuration : Except GatewayErr Configuration
  get_id : Except GatewayErr String
  get_pending_devices : Except GatewayErr PendingDevices
  get_pending_folders : Except GatewayErr PendingFolders
  get_connections : Except GatewayErr Connections
  get_completion : Option String → Option String → Except GatewayErr CompletionInfo

/-- Observable outcome of one iteration of the `listen_to_reload` worker
loop: the store afterwards, the reload jobs it enqueued (via
`state.reload(..)`), how many "view changed" notifications it published
on `config_tx`, and whether it panicked (the `todo!()` branch). -/
structure StepResult where
  state : InnerState
  enqueued : List Reload
  notifications : Nat
  panicked : Bool
  deriving Repr

/-- The body of the `for (device_id, connection) in connections.connections`
loop of the `Reload::Connections` arm: update the matching device's
status and, when it connected, enqueue a device-scoped completion
reload. -/
def apply_connection (acc : InnerState × List Reload)
    (p : String × ConnectionInfo) : InnerState × List Reload :=
  match updateFirstGet (fun d => d.config.device_id == p.1)
      (fun d =>
        { d with connected :=
            if p.2.connected then DeviceStatus.UpToDate
            else DeviceStatus.Disconnected })
      acc.1.devices with
  | some (ds, _) =>
    ({ acc.1 with devices := ds },
     if p.2.connected then acc.2 ++ [Reload.Completion none (some p.1)]
     else acc.2)
  | none => acc

/-- One iteration of `State::listen_to_reload` on job `reload`, with the
gateway's responses given by `g`.  `State::set_error` has an empty body
in the source, so the error-path writes are identity on the store. -/
def listen_to_reload_step (s : InnerState) (g : Gateway) (reload : Reload) :
    StepResult :=
  match reload with
  | Reload.Configuration =>
    match g.get_configuration with
    | .ok conf =>
      { state := s.update_from_configuration conf,
        enqueued := Reload.Connections ::
          conf.folders.map (fun f => Reload.Completion (some f.id) none),
        notifications := 1, panicked := false }
    | .error _e =>
      { state := s, enqueued := [], notifications := 1, panicked := false }
  | Reload.ID =>
    match g.get_id with
    | .ok id =>
      { state := { s with id := id }, enqueued := [],
        notifications := 1, panicked := false }
    | .error _e =>
      { state := s, enqueued := [], notifications := 1, panicked := false }
  | Reload.PendingDevices =>
    match g.get_pending_devices with
    | .ok devices =>
      { state := s.set_pending_devices devices, enqueued := [],
        notifications := 1, panicked := false }
    | .error _e =>
      { state := s, enqueued := [], notifications := 1, panicked := false }
  | Reload.PendingFolders =>
    match g.get_pending_folders with
    | .ok folders =>
      { state := s.set_pending_folders folders, enqueued := [],
        notifications := 1, panicked := false }
    | .error _e =>
      { state := s, enqueued := [], notifications := 1, panicked := false }
  | Reload.Connections =>
    match g.get_connections with
    | .ok connections =>
      let r := connections.connections.foldl apply_connection (s, [])
      { state := r.1, enqueued := r.2, notifications := 1, panicked := false }
    | .error _e =>
      { state := s, enqueued := [], notifications := 1, panicked := false }
  | Reload.Completion folder_id device_id =>
    match g.get_completion folder_id device_id with
    | .ok completion =>
      match device_id with
      | some device_id =>
        match folder_id with
        | some _folder_id =>
          -- `todo!("update folder completion for device")`
          { state := s, enqueued := [], notifications := 0, panicked := true }
        | none =>
          let state :=
            match updateFirstGet (fun d => d.config.device_id == device_id)
                (fun d =>
                  { d with connected :=
                      if completion.completion == 100 then DeviceStatus.UpToDate
                      else DeviceStatus.Syncing completion.completion })
                s.devices with
            | some (ds, _) => { s with devices := ds }
            | none => s
          { state := state, enqueued := [], notifications := 1, panicked := false }
      | none =>
        match folder_id with
        | some folder_id =>
          let state :=
            match updateFirstGet (fun f => f.config.id == folder_id)
                (fun f => { f with completion := completion.completion })
                s.folders with
            | some (fs, _) => { s with folders := fs }
            | none => s
          { state := state, enqueued := [], notifications := 1, panicked := false }
        | none =>
          { state := s, enqueued := [], notifications := 1, panicked := false }
    | .error _e =>
      { state := s, enqueued := [], notifications := 1, panicked := false }

/-- The `listen_to_reload` worker run over a whole queue of jobs, each
with the gateway responses in force when it runs.  Returns the final
store, the total number of notifications published, and whether the
worker aborted on a panic (in which case the remaining jobs are never
received). -/
def listen_to_reload_loop (s : InnerState) :
    List (Gateway × Reload) → InnerState × Nat × Bool
  | [] => (s, 0, false)
  | (g, r) :: rest =>
    let step := listen_to_reload_step s g r
    if step.panicked then (step.state, step.notifications, true)
    else
      let next := listen_to_reload_loop step.state rest
      (next.1, step.notifications + next.2.1, next.2.2)

/-- Observable outcome of one iteration of the `handle_event` worker:
the store afterwards, the reload jobs it sent on `reload_tx`, and the
number of "view changed" notifications it published on `config_tx`. -/
structure EventStepResult where
  state : InnerState
  enqueued : List Reload
  notifications : Nat
  deriving Repr

/-- One iteration of `State::handle_event` on one received event. -/
def handle_event_step (s : InnerState) (event : EventType) : EventStepResult :=
  match event with
  | EventType.ConfigSaved =>
    { state := s, enqueued := [Reload.Configuration], notifications := 0 }
  | EventType.DeviceConnected id =>
    let state :=
      match updateFirstGet (fun d => d.config.device_id == id)
          (fun d => { d with connected := DeviceStatus.UpToDate }) s.devices with
      | some (ds, _) => { s with devices := ds }
      | none => s
    { state := state, enqueued := [], notifications := 1 }
  | EventType.DeviceDisconnected id =>
    let state :=
      match updateFirstGet (fun d => d.config.device_id == id)
          (fun d => { d with connected := DeviceStatus.Disconnected }) s.devices with
      | some (ds, _) => { s with devices := ds }
      | none => s
    { state := state, enqueued := [], notifications := 1 }
  | EventType.PendingDevicesChanged =>
    { state := s, enqueued := [Reload.PendingDevices], notifications := 0 }
  | EventType.PendingFoldersChanged =>
    { state := s, enqueued := [Reload.PendingFolders], notifications := 0 }
  | EventType.RemoteDownloadProgress device =>
    { state := s, enqueued := [Reload.Completion none (some device)],
      notifications := 0 }
  | EventType.Other =>
    { state := s, enqueued := [], notifications := 0 }

/-- `State::set_error` — its body in the source is empty, the argument
is discarded. -/
def State.set_error (s : InnerState) (_error : AppError) : InnerState := s

/-- `State::clear_error` — its body in the source is empty. -/
def State.clear_error (s : InnerState) : InnerState := s

/-- A request the mutation path can issue against the gateway. -/
inductive GatewayCall where
  | add_device (d : NewDeviceConfiguration)
  | add_folder (f : NewFolderConfiguration)
  | post_folder (f : FolderConfiguration)
  deriving DecidableEq, Repr

/-- Observable outcome of one mutation operation on `State`: the store
afterwards, the gateway calls issued, the reload jobs enqueued, and the
`AppError` value handed to `set_error` (which discards it), if any. -/
structure MutationResult where
  state : InnerState
  calls : List GatewayCall
  enqueued : List Reload
  reported : Option AppError
  deriving DecidableEq, Repr

/-- `State::accept_device`, with `submit` the result the gateway's
`add_device` call would return. -/
def State.accept_device (s : InnerState) (device_id : String)
    (submit : Except GatewayErr Unit) : MutationResult :=
  match s.get_pending_device device_id with
  | .ok device =>
    match submit with
    | .ok _ =>
      { state := s, calls := [GatewayCall.add_device device],
        enqueued := [Reload.Configuration], reported := none }
    | .error e =>
      { state := State.set_error s (AppError.SyncthingError e),
        calls := [GatewayCall.add_device device],
        enqueued := [], reported := some (AppError.SyncthingError e) }
  | .error e =>
    { state := State.set_error s e, calls := [], enqueued := [],
      reported := some e }

/-- `State::add_foler` (sic), with `submit` the result the gateway's
`add_folder` call would return. -/
def State.add_foler (s : InnerState) (folder : NewFolderConfiguration)
    (submit : Except GatewayErr Unit) : MutationResult :=
  match submit with
  | .ok _ =>
    { state := s, calls := [GatewayCall.add_folder folder],
      enqueued := [Reload.Configuration], reported := none }
  | .error e =>
    { state := State.set_error s (AppError.SyncthingError e),
      calls := [GatewayCall.add_folder folder],
      enqueued := [], reported := some (AppError.SyncthingError e) }

/-- The mutation `State::share_folder` applies to the found folder
inside the `write` closure: `folder.config.devices.push(..)`. -/
def share_folder_push (device_id : String) (f : Folder) : Folder :=
  { f with config :=
      { f.config with devices :=
          f.config.devices ++
            [{ device_id := device_id, introduced_by := "",
               encryption_password := "" }] } }

/-- `State::share_folder`, with `submit` the result the gateway's
`post_folder` call would return.  The device is appended to the folder's
device list inside the `write` closure, before the gateway call is
spawned; the closure returns the mutated folder's configuration, which
is what gets submitted. -/
def State.share_folder (s : InnerState) (folder_id device_id : String)
    (submit : Except GatewayErr Unit) : MutationResult :=
  match updateFirstGet (fun f => f.config.id == folder_id)
      (share_folder_push device_id)
      s.folders with
  | some (fs, folder) =>
    let s2 := { s with folders := fs }
    match submit with
    | .ok _ =>
      { state := s2, calls := [GatewayCall.post_folder folder.config],
        enqueued := [], reported := none }
    | .error e =>
      { state := State.set_error s2 (AppError.SyncthingError e),
        calls := [GatewayCall.post_folder folder.config],
        enqueued := [], reported := some (AppError.SyncthingError e) }
  | none =>
    { state := State.set_error s AppError.UnknownFolder, calls := [],
      enqueued := [], reported := some AppError.UnknownFolder }

/-- `crate::ty::XattrFilter` (all-defaults in the paths modelled here). -/
structure TyXattrFilter where
  entries : List String
  max_single_entry_size : Nat
  max_total_size : Nat
  deriving DecidableEq, Repr

/-- `crate::ty::FolderDevice`. -/
structure TyFolderDevice where
  device_id : String
  introduced_by : String
  encryption_password : String
  deriving DecidableEq, Repr

/-- `crate::ty::Folder`, the payload of `Message::NewFolder`. -/
structure TyFolder where
  id : String
  label : String
  path : String
  devices : List TyFolderDevice
  xattr_filter : TyXattrFilter
  deriving DecidableEq, Repr

/-- `tui::app::state::Folder` (the inline `state` module of `app.rs`);
only the `id` field matters to the duplicate check. -/
structure AppStateFolder where
  id : String
  label : String
  path : String
  device_ids : List String
  deriving DecidableEq, Repr

/-- Observable outcome of `App::handle_new_folder`: the app-level error
slot afterwards, the `client.post_folder` calls issued, and the number
of `Message::None` rerender messages sent. -/
structure HandleNewFolderResult where
  error : Option AppError
  calls : List TyFolder
  rerenders : Nat
  deriving DecidableEq, Repr

/-- `App::handle_new_folder`, with `error0` the app error slot before
the call and `submit` the result the `post_folder` call would return
(the old app-level client surfaces its errors as `AppError` directly,
modelled by the `APIError` wrapper). -/
def App.handle_new_folder (folders : List AppStateFolder)
    (error0 : Option AppError) (folder : TyFolder)
    (submit : Except GatewayErr Unit) : HandleNewFolderResult :=
  if folders.any (fun f => f.id == folder.id) then
    { error := some AppError.DuplicateFolderID, calls := [], rerenders := 0 }
  else
    match submit with
    | .ok _ => { error := error0, calls := [folder], rerenders := 1 }
    | .error e =>
      { error := some (AppError.APIError e), calls := [folder], rerenders := 1 }

/-- Every operation of `State` that runs against the shared store, each
packaged with the environment responses it consumes: one reload-worker
iteration, one event-worker iteration, or one mutation call.
`set_error` / `clear_error` are included as the (empty-bodied) error
writes. -/
inductive Op where
  | reload (g : Gateway) (r : Reload)
  | event (e : EventType)
  | accept_device (device_id : String) (submit : Except GatewayErr Unit)
  | add_foler (folder : NewFolderConfiguration) (submit : Except GatewayErr Unit)
  | share_folder (folder_id device_id : String) (submit : Except GatewayErr Unit)
  | set_error (e : AppError)
  | clear_error

/-- The effect of one `Op` on the shared store. -/
def applyOp (s : InnerState) : Op → InnerState
  | Op.reload g r => (listen_to_reload_step s g r).state
  | Op.event e => (handle_event_step s e).state
  | Op.accept_device device_id submit => (State.accept_device s device_id submit).state
  | Op.add_foler folder submit => (State.add_foler s folder submit).state
  | Op.share_folder folder_id device_id submit =>
      (State.share_folder s folder_id device_id submit).state
  | Op.set_error e => State.set_error s e
  | Op.clear_error => State.clear_error s

/-- A whole history of store operations, applied in order. -/
def runOps (s : InnerState) (ops : List Op) : InnerState :=
  ops.foldl applyOp s

/-- Does the single gateway call performed by job `r` fail on `g`? -/
def gateway_fails (g : Gateway) : Reload → Bool
  | Reload.ID => match g.get_id with | .ok _ => false | .error _ => true
  | Reload.Configuration =>
      match g.get_configuration with | .ok _ => false | .error _ => true
  | Reload.PendingDevices =>
      match g.get_pending_devices with | .ok _ => false | .error _ => true
  | Reload.PendingFolders =>
      match g.get_pending_folders with | .ok _ => false | .error _ => true
  | Reload.Connections =>
      match g.get_connections with | .ok _ => false | .error _ => true
  | Reload.Completion folder_id device_id =>
      match g.get_completion folder_id device_id with
      | .ok _ => false | .error _ => true

/-- A concrete configured device used in concrete runs. -/
def demo_device : Device :=
  { config := { device_id := "dev1", name := "Laptop" },
    connected := DeviceStatus.UpToDate }

/-- A concrete configured folder (completion 37%, shared with dev1). -/
def demo_folder : Folder :=
  { config :=
      { id := "f1", label := "F1", path := "/data",
        devices := [{ device_id := "dev1", introduced_by := "",
                      encryption_password := "" }] },
    completion := 37 }

/-- A concrete store holding `demo_device`, `demo_folder` and one
pending device `devX`. -/
def demo_state : InnerState :=
  { InnerState.default with
      devices := [demo_device],
      folders := [demo_folder],
      pending_devices := [(NewDeviceConfiguration.new "devX").name_builder "Phone"] }

/-- A concrete configuration snapshot listing the same IDs as
`demo_state`. -/
def demo_conf : Configuration :=
  { folders := [{ id := "f1", label := "F1", path := "/data", devices := [] }],
    devices := [{ device_id := "dev1", name := "Laptop" }] }

/-- A gateway on which every call fails. -/
def gw_all_fail : Gateway :=
  { get_configuration := .error ⟨"connection refused"⟩,
    get_id := .error ⟨"connection refused"⟩,
    get_pending_devices := .error ⟨"connection refused"⟩,
    get_pending_folders := .error ⟨"connection refused"⟩,
    get_connections := .error ⟨"connection refused"⟩,
    get_completion := fun _ _ => .error ⟨"connection refused"⟩ }

/-- A gateway whose completion fetch succeeds (at 50%). -/
def gw_completion_ok : Gateway :=
  { gw_all_fail with get_completion := fun _ _ => .ok ⟨50⟩ }

/-- A gateway whose configuration fetch returns `demo_conf`. -/
def gw_config_ok : Gateway :=
  { gw_all_fail with get_configuration := .ok demo_conf }

/-- A concrete folder list for the old app-level store (inline `state`
module of `app.rs`): one folder `f1`. -/
def demo_app_folders : List AppStateFolder :=
  [{ id := "f1", label := "F1", path := "/data", device_ids := ["dev1"] }]

/-- A concrete `crate::ty::Folder` whose ID collides with `f1`. -/
def demo_ty_folder : TyFolder :=
  { id := "f1", label := "F1", path := "/data", devices := [],
    xattr_filter := { entries := [], max_single_entry_size := 1024,
                      max_total_size := 4096 } }

/-- A concrete `crate::ty::Folder` with a fresh ID `f2`. -/
def demo_ty_folder2 : TyFolder :=
  { demo_ty_folder with id := "f2" }

/-- A concrete fresh `NewFolderConfiguration`. -/
def demo_new_folder : NewFolderConfiguration :=
  NewFolderConfiguration.new "f2" "/data"

/-! ### Helper lemmas -/

/-- Pushing through a fold is mapping. -/
theorem foldl_push_eq_map (g : α → β) (l : List α) (init : List β) :
    l.foldl (fun acc x => acc ++ [g x]) init = init ++ l.map g := by
  induction l generalizing init with
  | nil => simp
  | cons x xs ih => simp [List.foldl_cons, ih]

/-- The devices after `update_from_configuration` are exactly the
snapshot's devices pushed through the `From` conversion. -/
theorem update_from_configuration_devices (s : InnerState) (c : Configuration) :
    (s.update_from_configuration c).devices = c.devices.map Device.fromConfiguration := by
  simp [InnerState.update_from_configuration, foldl_push_eq_map]

/-- The folders after `update_from_configuration` are exactly the
snapshot's folders pushed through the `From` conversion. -/
theorem update_from_configuration_folders (s : InnerState) (c : Configuration) :
    (s.update_from_configuration c).folders = c.folders.map Folder.fromConfiguration := by
  simp [InnerState.update_from_configuration, foldl_push_eq_map]

theorem updateFirstGet_eq_none {p : α → Bool} {f : α → α} {l : List α} :
    updateFirstGet p f l = none ↔ l.find? p = none := by
  induction l with
  | nil => simp [updateFirstGet]
  | cons x xs ih =>
    by_cases hx : p x
    · simp [updateFirstGet, hx, List.find?_cons_of_pos _ hx]
    · simp [updateFirstGet, hx, List.find?_cons_of_neg _ hx, ih,
        Option.map_eq_none']

theorem updateFirstGet_of_find?_eq_some {p : α → Bool} {f : α → α}
    {l : List α} {a : α} (h : l.find? p = some a) :
    ∃ l', updateFirstGet p f l = some (l', f a) := by
  induction l with
  | nil => simp [List.find?] at h
  | cons x xs ih =>
    by_cases hx : p x
    · rw [List.find?_cons_of_pos _ hx] at h
      cases h
      exact ⟨f a :: xs, by simp [updateFirstGet, hx]⟩
    · rw [List.find?_cons_of_neg _ hx] at h
      obtain ⟨l', hl'⟩ := ih h
      exact ⟨x :: l', by simp [updateFirstGet, hx, hl']⟩

/-- When the mutation preserves the search predicate, `find?` on the
updated list returns the updated element. -/
theorem find?_updateFirstGet {p : α → Bool} {f : α → α} {l l' : List α} {b : α}
    (hp : ∀ a, p a = true → p (f a) = true)
    (h : updateFirstGet p f l = some (l', b)) :
    l'.find? p = some b := by
  induction l generalizing l' with
  | nil => simp [updateFirstGet] at h
  | cons x xs ih =>
    by_cases hx : p x
    · simp only [updateFirstGet, hx, if_pos, Option.some.injEq, Prod.mk.injEq] at h
      obtain ⟨h1, h2⟩ := h
      subst h1; subst h2
      rw [List.find?_cons_of_pos _ (hp x hx)]
    · cases hu : updateFirstGet p f xs with
      | none => simp [updateFirstGet, hx, hu] at h
      | some r =>
        obtain ⟨l2, b2⟩ := r
        simp only [updateFirstGet, hx, hu, if_neg, Bool.false_eq_true, if_false,
          Option.map_some', Option.some.injEq, Prod.mk.injEq] at h
        obtain ⟨h1, h2⟩ := h
        subst h1; subst h2
        rw [List.find?_cons_of_neg _ hx]
        exact ih hu

theorem apply_connection_error (acc : InnerState × List Reload)
    (p : String × ConnectionInfo) :
    (apply_connection acc p).1.error = acc.1.error := by
  unfold apply_connection
  cases hu : updateFirstGet (fun d => d.config.device_id == p.1)
      (fun d =>
        { d with connected :=
            if p.2.connected then DeviceStatus.UpToDate
            else DeviceStatus.Disconnected })
      acc.1.devices with
  | none => simp [hu]
  | some r => simp [hu]

theorem foldl_apply_connection_error (l : List (String × ConnectionInfo))
    (acc : InnerState × List Reload) :
    (l.foldl apply_connection acc).1.error = acc.1.error := by
  induction l generalizing acc with
  | nil => rfl
  | cons x xs ih =>
    rw [List.foldl_cons, ih]
    exact apply_connection_error acc x

/-- No arm of the reload worker writes the error slot (`set_error` is
empty). -/
theorem listen_to_reload_step_error (s : InnerState) (g : Gateway) (r : Reload) :
    (listen_to_reload_step s g r).state.error = s.error := by
  cases r with
  | ID =>
    cases h : g.get_id <;> simp [listen_to_reload_step, h]
  | Configuration =>
    cases h : g.get_configuration <;>
      simp [listen_to_reload_step, h, InnerState.update_from_configuration]
  | PendingDevices =>
    cases h : g.get_pending_devices <;>
      simp [listen_to_reload_step, h, InnerState.set_pending_devices]
  | PendingFolders =>
    cases h : g.get_pending_folders <;>
      simp [listen_to_reload_step, h, InnerState.set_pending_folders]
  | Connections =>
    cases h : g.get_connections with
    | error e => simp [listen_to_reload_step, h]
    | ok connections =>
      simp only [listen_to_reload_step, h]
      exact foldl_apply_connection_error connections.connections (s, [])
  | Completion folder_id device_id =>
    cases h : g.get_completion folder_id device_id with
    | error e => simp [listen_to_reload_step, h]
    | ok completion =>
      cases device_id with
      | some device_id =>
        cases folder_id with
        | some folder_id => simp [listen_to_reload_step, h]
        | none =>
          simp only [listen_to_reload_step, h]
          cases hu : updateFirstGet (fun d => d.config.device_id == device_id)
              (fun d =>
                { d with connected :=
                    if completion.completion == 100 then DeviceStatus.UpToDate
                    else DeviceStatus.Syncing completion.completion })
              s.devices with
          | none => simp [hu]
          | some r => simp [hu]
      | none =>
        cases folder_id with
        | none => simp [listen_to_reload_step, h]
        | some folder_id =>
          simp only [listen_to_reload_step, h]
          cases hu : updateFirstGet (fun f => f.config.id == folder_id)
              (fun f => { f with completion := completion.completion })
              s.folders with
          | none => simp [hu]
          | some r => simp [hu]

/-- The event worker never writes the error slot. -/
theorem handle_event_step_error (s : InnerState) (e : EventType) :
    (handle_event_step s e).state.error = s.error := by
  cases e with
  | DeviceConnected id =>
    simp only [handle_event_step]
    cases hu : updateFirstGet (fun d => d.config.device_id == id)
        (fun d => { d with connected := DeviceStatus.UpToDate }) s.devices with
    | none => simp [hu]
    | some r => simp [hu]
  | DeviceDisconnected id =>
    simp only [handle_event_step]
    cases hu : updateFirstGet (fun d => d.config.device_id == id)
        (fun d => { d with connected := DeviceStatus.Disconnected }) s.devices with
    | none => simp [hu]
    | some r => simp [hu]
  | ConfigSaved => rfl
  | PendingDevicesChanged => rfl
  | PendingFoldersChanged => rfl
  | RemoteDownloadProgress device => rfl
  | Other => rfl

/-- `accept_device` never touches the store (its only writes go through
the empty `set_error`). -/
theorem accept_device_state (s : InnerState) (device_id : String)
    (submit : Except GatewayErr Unit) :
    (State.accept_device s device_id submit).state = s := by
  unfold State.accept_device
  cases h : s.get_pending_device device_id <;> cases submit <;> rfl

/-- `add_foler` never touches the store. -/
theorem add_foler_state (s : InnerState) (folder : NewFolderConfiguration)
    (submit : Except GatewayErr Unit) :
    (State.add_foler s folder submit).state = s := by
  unfold State.add_foler
  cases submit <;> rfl

/-- `share_folder` mutates only the folder list, never the error slot. -/
theorem share_folder_state_error (s : InnerState) (folder_id device_id : String)
    (submit : Except GatewayErr Unit) :
    (State.share_folder s folder_id device_id submit).state.error = s.error := by
  unfold State.share_folder
  cases hu : updateFirstGet (fun f => f.config.id == folder_id)
      (share_folder_push device_id) s.folders with
  | none => simp [hu, State.set_error]
  | some r => cases submit <;> simp [hu, State.set_error]

/-- No store operation ever writes the error slot. -/
theorem applyOp_error (s : InnerState) (op : Op) :
    (applyOp s op).error = s.error := by
  cases op with
  | reload g r => exact listen_to_reload_step_error s g r
  | event e => exact handle_event_step_error s e
  | accept_device device_id submit =>
    simp [applyOp, accept_device_state]
  | add_foler folder submit =>
    simp [applyOp, add_foler_state]
  | share_folder folder_id device_id submit =>
    exact share_folder_state_error s folder_id device_id submit
  | set_error e => rfl
  | clear_error => rfl

/-- Error preservation lifted to whole operation histories. -/
theorem runOps_error (ops : List Op) (s : InnerState) :
    (runOps s ops).error = s.error := by
  induction ops generalizing s with
  | nil => rfl
  | cons op rest ih =>
    show (runOps (applyOp s op) rest).error = s.error
    rw [ih (applyOp s op), applyOp_error]

/-! ### Claims -/

/-- C9: the shared error slot is never written by any `State`
operation — `set_error` discards its argument and `clear_error` does
nothing — so after every sequence of reloads, events and mutations
starting from the default store, every read observes `error = none`. -/
theorem error_slot_never_written (ops : List Op) :
    (runOps InnerState.default ops).error = none :=
  runOps_error ops InnerState.default

/-- C8: merging the same fetched `PendingFolders` snapshot twice leaves
the store identical to merging it once — the merge clears and rebuilds
the pending-folder collection from the snapshot alone. -/
theorem set_pending_folders_idempotent (s : InnerState) (pf : PendingFolders) :
    (s.set_pending_folders pf).set_pending_folders pf = s.set_pending_folders pf :=
  rfl

/-- C2 counterexample: merging a full configuration snapshot does NOT
preserve the derived fields of entries whose IDs survive the merge.
In `demo_state`, device `dev1` is `UpToDate` and folder `f1` is at 37%
completion; both IDs also appear in `demo_conf`, yet after the merge
the device is `Disconnected` and the folder is at 100%. -/
theorem update_from_configuration_derived_fields_not_preserved_cex :
    demo_state.get_device "dev1" =
      .ok { config := { device_id := "dev1", name := "Laptop" },
            connected := DeviceStatus.UpToDate } ∧
    (demo_state.update_from_configuration demo_conf).get_device "dev1" =
      .ok { config := { device_id := "dev1", name := "Laptop" },
            connected := DeviceStatus.Disconnected } ∧
    DeviceStatus.Disconnected ≠ DeviceStatus.UpToDate ∧
    demo_state.get_folder "f1" = .ok demo_folder ∧
    demo_folder.completion = 37 ∧
    (demo_state.update_from_configuration demo_conf).get_folder "f1" =
      .ok { config := { id := "f1", label := "F1", path := "/data", devices := [] },
            completion := 100 } ∧
    (37 : ℚ) ≠ 100 := by
  refine ⟨rfl, rfl, by decide, rfl, rfl, rfl, by norm_num⟩

/-- C2 (amended): merging a full `Configuration` snapshot replaces the
folder and device collections wholesale, so that they equal exactly the
snapshot's folders and devices pushed through the `From` conversions;
the derived fields are NOT preserved across the replace — every device
comes out `Disconnected` and every folder at 100% completion, whatever
their pre-merge values were. -/
theorem update_from_configuration_wholesale_replace_resets_derived
    (s : InnerState) (c : Configuration) :
    (s.update_from_configuration c).folders = c.folders.map Folder.fromConfiguration ∧
    (s.update_from_configuration c).devices = c.devices.map Device.fromConfiguration ∧
    (∀ d, d ∈ (s.update_from_configuration c).devices →
        d.connected = DeviceStatus.Disconnected) ∧
    (∀ f, f ∈ (s.update_from_configuration c).folders → f.completion = 100) := by
  refine ⟨update_from_configuration_folders s c,
    update_from_configuration_devices s c, ?_, ?_⟩
  · intro d hd
    rw [update_from_configuration_devices] at hd
    obtain ⟨dc, _, rfl⟩ := List.mem_map.mp hd
    rfl
  · intro f hf
    rw [update_from_configuration_folders] at hf
    obtain ⟨fc, _, rfl⟩ := List.mem_map.mp hf
    rfl

/-- Witness for the amended C2 theorem at `demo_state` / `demo_conf`. -/
theorem update_from_configuration_wholesale_replace_resets_derived_witness :
    (Device.fromConfiguration { device_id := "dev1", name := "Laptop" }).connected =
      DeviceStatus.Disconnected :=
  (update_from_configuration_wholesale_replace_resets_derived demo_state demo_conf).2.2.1
    (Device.fromConfiguration { device_id := "dev1", name := "Laptop" })
    (by decide)

/-- C5: when a `Configuration` reload's fetch succeeds, the worker
enqueues exactly a `Connections` reload followed by one folder-scoped
`Completion` reload (no device ID) per folder of the returned snapshot,
in snapshot order; in particular `Connections` is enqueued exactly
once. -/
theorem configuration_reload_enqueues_connections_and_completions
    (s : InnerState) (g : Gateway) (conf : Configuration)
    (h : g.get_configuration = .ok conf) :
    (listen_to_reload_step s g Reload.Configuration).enqueued =
      Reload.Connections ::
        conf.folders.map (fun f => Reload.Completion (some f.id) none) ∧
    (listen_to_reload_step s g Reload.Configuration).enqueued.count
      Reload.Connections = 1 := by
  have he : (listen_to_reload_step s g Reload.Configuration).enqueued =
      Reload.Connections ::
        conf.folders.map (fun f => Reload.Completion (some f.id) none) := by
    simp [listen_to_reload_step, h]
  refine ⟨he, ?_⟩
  rw [he, List.count_cons_self]
  have hz : (conf.folders.map
      (fun f => Reload.Completion (some f.id) none)).count Reload.Connections = 0 := by
    rw [List.count_eq_zero]
    intro hmem
    obtain ⟨f, _, hf⟩ := List.mem_map.mp hmem
    cases hf
  rw [hz]

/-- Witness for C5 at a gateway returning `demo_conf`. -/
theorem configuration_reload_enqueues_connections_and_completions_witness :
    (listen_to_reload_step InnerState.default gw_config_ok
        Reload.Configuration).enqueued =
      Reload.Connections ::
        demo_conf.folders.map (fun f => Reload.Completion (some f.id) none) ∧
    (listen_to_reload_step InnerState.default gw_config_ok
        Reload.Configuration).enqueued.count Reload.Connections = 1 :=
  configuration_reload_enqueues_connections_and_completions
    InnerState.default gw_config_ok demo_conf rfl

/-- C4: `accept_device` on an ID absent from the pending-device set
produces `UnknownDevice` and performs no gateway call; on a present ID
it submits exactly one add-device request (for the first matching
pending entry) and, when that call succeeds, enqueues a `Configuration`
reload. -/
theorem accept_device_unknown_rejected_known_submitted
    (s : InnerState) (device_id : String) (submit : Except GatewayErr Unit) :
    ((∀ d ∈ s.pending_devices, d.get_device_id ≠ device_id) →
        State.accept_device s device_id submit =
          { state := s, calls := [], enqueued := [],
            reported := some AppError.UnknownDevice }) ∧
    ((∃ d ∈ s.pending_devices, d.get_device_id = device_id) →
        (∃ d, d ∈ s.pending_devices ∧ d.get_device_id = device_id ∧
            (State.accept_device s device_id submit).calls =
              [GatewayCall.add_device d]) ∧
        (submit = .ok () →
            (State.accept_device s device_id submit).enqueued =
              [Reload.Configuration])) := by
  constructor
  · intro habs
    have hfind : s.pending_devices.find?
        (fun d => d.get_device_id == device_id) = none := by
      rw [List.find?_eq_none]
      intro d hd
      simpa using habs d hd
    unfold State.accept_device InnerState.get_pending_device
    rw [hfind]
    rfl
  · intro hex
    have hsome : (s.pending_devices.find?
        (fun d => d.get_device_id == device_id)).isSome := by
      rw [List.find?_isSome]
      obtain ⟨d, hd, he⟩ := hex
      exact ⟨d, hd, by simpa using he⟩
    obtain ⟨d0, hd0⟩ := Option.isSome_iff_exists.mp hsome
    have hmem := List.mem_of_find?_eq_some hd0
    have hid : d0.get_device_id = device_id := by
      have := List.find?_some hd0
      simpa using this
    constructor
    · refine ⟨d0, hmem, hid, ?_⟩
      unfold State.accept_device InnerState.get_pending_device
      rw [hd0]
      cases submit <;> rfl
    · intro hok
      subst hok
      unfold State.accept_device InnerState.get_pending_device
      rw [hd0]

/-- Witness for C4: `devZ` is not pending in `demo_state` and is
rejected; `devX` is pending, gets submitted and triggers the reload. -/
theorem accept_device_unknown_rejected_known_submitted_witness :
    (State.accept_device demo_state "devZ" (Except.ok ()) =
      { state := demo_state, calls := [], enqueued := [],
        reported := some AppError.UnknownDevice }) ∧
    ((∃ d, d ∈ demo_state.pending_devices ∧ d.get_device_id = "devX" ∧
        (State.accept_device demo_state "devX" (Except.ok ())).calls =
          [GatewayCall.add_device d]) ∧
      ((Except.ok () : Except GatewayErr Unit) = Except.ok () →
        (State.accept_device demo_state "devX" (Except.ok ())).enqueued =
          [Reload.Configuration])) :=
  ⟨(accept_device_unknown_rejected_known_submitted demo_state "devZ"
      (Except.ok ())).1 (by decide),
   (accept_device_unknown_rejected_known_submitted demo_state "devX"
      (Except.ok ())).2 (by decide)⟩

/-- C7: a `DeviceConnected` event for a configured device updates that
device's status to `UpToDate` by a direct store write — no reload job of
any kind is enqueued — so the next read of the store observes
`UpToDate`. -/
theorem device_connected_event_sets_uptodate
    (s : InnerState) (id : String) (d : Device)
    (h : s.get_device id = .ok d) :
    (∃ d2, (handle_event_step s (EventType.DeviceConnected id)).state.get_device id =
        .ok d2 ∧ d2.connected = DeviceStatus.UpToDate) ∧
    (handle_event_step s (EventType.DeviceConnected id)).enqueued = [] ∧
    (handle_event_step s (EventType.DeviceConnected id)).notifications = 1 := by
  have hfind : s.devices.find? (fun x => x.config.device_id == id) = some d := by
    unfold InnerState.get_device at h
    cases hf : s.devices.find? (fun x => x.config.device_id == id) with
    | none => rw [hf] at h; cases h
    | some d2 => rw [hf] at h; cases h; rfl
  obtain ⟨l', hl'⟩ := updateFirstGet_of_find?_eq_some
    (f := fun x => { x with connected := DeviceStatus.UpToDate }) hfind
  have hfind2 := find?_updateFirstGet
    (p := fun x : Device => x.config.device_id == id)
    (f := fun x : Device => { x with connected := DeviceStatus.UpToDate })
    (fun a ha => ha) hl'
  refine ⟨⟨{ d with connected := DeviceStatus.UpToDate }, ?_, rfl⟩, rfl, rfl⟩
  simp only [handle_event_step, hl']
  unfold InnerState.get_device
  simp [hfind2]

/-- Witness for C7 at `demo_state` / `dev1`. -/
theorem device_connected_event_sets_uptodate_witness :
    (∃ d2, (handle_event_step demo_state
        (EventType.DeviceConnected "dev1")).state.get_device "dev1" =
        .ok d2 ∧ d2.connected = DeviceStatus.UpToDate) ∧
    (handle_event_step demo_state (EventType.DeviceConnected "dev1")).enqueued = [] ∧
    (handle_event_step demo_state (EventType.DeviceConnected "dev1")).notifications = 1 :=
  device_connected_event_sets_uptodate demo_state "dev1" demo_device rfl

/-- C3 counterexample: a `Configuration` reload whose gateway call
fails does NOT store the error into the shared error slot — `set_error`
has an empty body, so the slot stays `none`. -/
theorem reload_gateway_error_not_stored_cex :
    gateway_fails gw_all_fail Reload.Configuration = true ∧
    (listen_to_reload_step InnerState.default gw_all_fail
        Reload.Configuration).state.error = none :=
  ⟨rfl, rfl⟩

/-- C3 (amended): for every reload job whose gateway call fails, the
error is logged and (for the `Configuration`/`ID` arms) handed to the
empty-bodied `set_error`, leaving the store — error slot included —
unchanged; the worker does not panic, still publishes its notification,
and the loop goes on to receive and execute the next queued job. -/
theorem reload_gateway_error_never_aborts_worker
    (s : InnerState) (g : Gateway) (r : Reload)
    (rest : List (Gateway × Reload)) (h : gateway_fails g r = true) :
    (listen_to_reload_step s g r).state = s ∧
    (listen_to_reload_step s g r).panicked = false ∧
    (listen_to_reload_step s g r).notifications = 1 ∧
    listen_to_reload_loop s ((g, r) :: rest) =
      ((listen_to_reload_loop (listen_to_reload_step s g r).state rest).1,
        1 + (listen_to_reload_loop (listen_to_reload_step s g r).state rest).2.1,
        (listen_to_reload_loop (listen_to_reload_step s g r).state rest).2.2) := by
  have hstep : (listen_to_reload_step s g r).state = s ∧
      (listen_to_reload_step s g r).panicked = false ∧
      (listen_to_reload_step s g r).notifications = 1 := by
    cases r with
    | ID =>
      cases hres : g.get_id with
      | ok v => simp [gateway_fails, hres] at h
      | error e => simp [listen_to_reload_step, hres]
    | Configuration =>
      cases hres : g.get_configuration with
      | ok v => simp [gateway_fails, hres] at h
      | error e => simp [listen_to_reload_step, hres]
    | PendingDevices =>
      cases hres : g.get_pending_devices with
      | ok v => simp [gateway_fails, hres] at h
      | error e => simp [listen_to_reload_step, hres]
    | PendingFolders =>
      cases hres : g.get_pending_folders with
      | ok v => simp [gateway_fails, hres] at h
      | error e => simp [listen_to_reload_step, hres]
    | Connections =>
      cases hres : g.get_connections with
      | ok v => simp [gateway_fails, hres] at h
      | error e => simp [listen_to_reload_step, hres]
    | Completion folder_id device_id =>
      cases hres : g.get_completion folder_id device_id with
      | ok v => simp [gateway_fails, hres] at h
      | error e => simp [listen_to_reload_step, hres]
  obtain ⟨h1, h2, h3⟩ := hstep
  refine ⟨h1, h2, h3, ?_⟩
  simp [listen_to_reload_loop, h2, h3]

/-- Witness for the amended C3 theorem: the all-failing gateway on a
`Configuration` job, followed by one more queued job. -/
theorem reload_gateway_error_never_aborts_worker_witness :
    (listen_to_reload_step InnerState.default gw_all_fail
        Reload.Configuration).state = InnerState.default ∧
    (listen_to_reload_step InnerState.default gw_all_fail
        Reload.Configuration).panicked = false ∧
    (listen_to_reload_step InnerState.default gw_all_fail
        Reload.Configuration).notifications = 1 ∧
    listen_to_reload_loop InnerState.default
        [(gw_all_fail, Reload.Configuration), (gw_all_fail, Reload.ID)] =
      ((listen_to_reload_loop (listen_to_reload_step InnerState.default gw_all_fail
          Reload.Configuration).state [(gw_all_fail, Reload.ID)]).1,
        1 + (listen_to_reload_loop (listen_to_reload_step InnerState.default gw_all_fail
          Reload.Configuration).state [(gw_all_fail, Reload.ID)]).2.1,
        (listen_to_reload_loop (listen_to_reload_step InnerState.default gw_all_fail
          Reload.Configuration).state [(gw_all_fail, Reload.ID)]).2.2) :=
  reload_gateway_error_never_aborts_worker InnerState.default gw_all_fail
    Reload.Configuration [(gw_all_fail, Reload.ID)] rfl

/-- C6 counterexample: a `Completion` job carrying both a folder ID and
a device ID whose gateway fetch succeeds reaches the
`todo!("update folder completion for device")` branch: the worker
panics, publishes no notification, and the next queued job (here a
`Configuration` job) is never processed. -/
theorem reload_notification_todo_panic_cex :
    (listen_to_reload_step InnerState.default gw_completion_ok
        (Reload.Completion (some "f1") (some "dev1"))).notifications = 0 ∧
    (listen_to_reload_step InnerState.default gw_completion_ok
        (Reload.Completion (some "f1") (some "dev1"))).panicked = true ∧
    listen_to_reload_loop InnerState.default
        [(gw_completion_ok, Reload.Completion (some "f1") (some "dev1")),
         (gw_config_ok, Reload.Configuration)] =
      (InnerState.default, 0, true) :=
  ⟨rfl, rfl, rfl⟩

/-- C6 (amended): every reload job is followed by exactly one "view
changed" notification before the next job is processed, except a
`Completion` job carrying both a folder ID and a device ID whose fetch
succeeds: that job hits an unimplemented `todo!()` branch, panics, and
publishes nothing — and that is the only job kind that can panic. -/
theorem reload_notification_unless_todo_panic
    (s : InnerState) (g : Gateway) (r : Reload) :
    ((listen_to_reload_step s g r).panicked = false →
        (listen_to_reload_step s g r).notifications = 1) ∧
    ((listen_to_reload_step s g r).panicked = true ↔
        ∃ fid did c, r = Reload.Completion (some fid) (some did) ∧
          g.get_completion (some fid) (some did) = .ok c) := by
  cases r with
  | ID =>
    cases hres : g.get_id with
    | ok v =>
      refine ⟨fun _ => by simp [listen_to_reload_step, hres], ?_⟩
      simp only [listen_to_reload_step, hres]
      simp
    | error e =>
      refine ⟨fun _ => by simp [listen_to_reload_step, hres], ?_⟩
      simp only [listen_to_reload_step, hres]
      simp
  | Configuration =>
    cases hres : g.get_configuration with
    | ok v =>
      refine ⟨fun _ => by simp [listen_to_reload_step, hres], ?_⟩
      simp only [listen_to_reload_step, hres]
      simp
    | error e =>
      refine ⟨fun _ => by simp [listen_to_reload_step, hres], ?_⟩
      simp only [listen_to_reload_step, hres]
      simp
  | PendingDevices =>
    cases hres : g.get_pending_devices with
    | ok v =>
      refine ⟨fun _ => by simp [listen_to_reload_step, hres], ?_⟩
      simp only [listen_to_reload_step, hres]
      simp
    | error e =>
      refine ⟨fun _ => by simp [listen_to_reload_step, hres], ?_⟩
      simp only [listen_to_reload_step, hres]
      simp
  | PendingFolders =>
    cases hres : g.get_pending_folders with
    | ok v =>
      refine ⟨fun _ => by simp [listen_to_reload_step, hres], ?_⟩
      simp only [listen_to_reload_step, hres]
      simp
    | error e =>
      refine ⟨fun _ => by simp [listen_to_reload_step, hres], ?_⟩
      simp only [listen_to_reload_step, hres]
      simp
  | Connections =>
    cases hres : g.get_connections with
    | ok v =>
      refine ⟨fun _ => by simp [listen_to_reload_step, hres], ?_⟩
      simp only [listen_to_reload_step, hres]
      simp
    | error e =>
      refine ⟨fun _ => by simp [listen_to_reload_step, hres], ?_⟩
      simp only [listen_to_reload_step, hres]
      simp
  | Completion folder_id device_id =>
    cases hres : g.get_completion folder_id device_id with
    | error e =>
      refine ⟨fun _ => by simp [listen_to_reload_step, hres], ?_⟩
      constructor
      · intro hfalse
        simp [listen_to_reload_step, hres] at hfalse
      · rintro ⟨fid, did, c, heq, hok⟩
        injection heq with h1 h2
        subst h1; subst h2
        rw [hres] at hok
        cases hok
    | ok v =>
      cases device_id with
      | none =>
        cases folder_id with
        | none =>
          refine ⟨fun _ => by simp [listen_to_reload_step, hres], ?_⟩
          constructor
          · intro hfalse
            simp [listen_to_reload_step, hres] at hfalse
          · rintro ⟨fid, did, c, heq, hok⟩
            cases heq
        | some fid0 =>
          refine ⟨fun _ => by simp [listen_to_reload_step, hres], ?_⟩
          constructor
          · intro hfalse
            simp [listen_to_reload_step, hres] at hfalse
          · rintro ⟨fid, did, c, heq, hok⟩
            cases heq
      | some did0 =>
        cases folder_id with
        | none =>
          refine ⟨fun _ => by simp [listen_to_reload_step, hres], ?_⟩
          constructor
          · intro hfalse
            simp [listen_to_reload_step, hres] at hfalse
          · rintro ⟨fid, did, c, heq, hok⟩
            cases heq
        | some fid0 =>
          refine ⟨?_, ?_⟩
          · intro hfalse
            simp [listen_to_reload_step, hres] at hfalse
          · constructor
            · intro _
              exact ⟨fid0, did0, v, rfl, hres⟩
            · intro _
              simp [listen_to_reload_step, hres]

/-- Witness for the amended C6 theorem: a failing `Configuration` job
does not panic and publishes exactly one notification; the concrete
double-scoped `Completion` job instantiates the panic
characterization. -/
theorem reload_notification_unless_todo_panic_witness :
    ((listen_to_reload_step InnerState.default gw_all_fail
        Reload.Configuration).panicked = false →
      (listen_to_reload_step InnerState.default gw_all_fail
        Reload.Configuration).notifications = 1) ∧
    ((listen_to_reload_step InnerState.default gw_completion_ok
        (Reload.Completion (some "f1") (some "dev1"))).panicked = true ↔
      ∃ fid did c, Reload.Completion (some "f1") (some "dev1") =
          Reload.Completion (some fid) (some did) ∧
        gw_completion_ok.get_completion (some fid) (some did) = .ok c) :=
  ⟨(reload_notification_unless_todo_panic InnerState.default gw_all_fail
      Reload.Configuration).1,
   (reload_notification_unless_todo_panic InnerState.default gw_completion_ok
      (Reload.Completion (some "f1") (some "dev1"))).2⟩

/-- C10: `share_folder` appends the device to the local folder's device
list unconditionally — even when the device is already in the list, so
the count of entries for that device grows by one — and submits exactly
the mutated configuration; the local mutation is the same whether the
gateway call succeeds or fails; and on an unknown folder ID no gateway
call is made. -/
theorem share_folder_appends_before_submit
    (s : InnerState) (folder_id device_id : String)
    (submit : Except GatewayErr Unit) :
    (∀ f, s.get_folder folder_id = .ok f →
        ∃ f2, (State.share_folder s folder_id device_id submit).state.get_folder
            folder_id = .ok f2 ∧
          f2.config.devices = f.config.devices ++
            [{ device_id := device_id, introduced_by := "",
               encryption_password := "" }] ∧
          f2.config.devices.countP (fun fd => fd.device_id == device_id) =
            f.config.devices.countP (fun fd => fd.device_id == device_id) + 1 ∧
          (State.share_folder s folder_id device_id submit).calls =
            [GatewayCall.post_folder f2.config]) ∧
    ((State.share_folder s folder_id device_id submit).state =
        (State.share_folder s folder_id device_id (Except.ok ())).state) ∧
    (s.get_folder folder_id = .error AppError.UnknownFolder →
        State.share_folder s folder_id device_id submit =
          { state := s, calls := [], enqueued := [],
            reported := some AppError.UnknownFolder }) := by
  refine ⟨?_, ?_, ?_⟩
  · intro f h
    have hfind : s.folders.find? (fun x => x.config.id == folder_id) = some f := by
      unfold InnerState.get_folder at h
      cases hf : s.folders.find? (fun x => x.config.id == folder_id) with
      | none => rw [hf] at h; cases h
      | some f0 => rw [hf] at h; cases h; rfl
    obtain ⟨l', hl'⟩ := updateFirstGet_of_find?_eq_some
      (f := share_folder_push device_id) hfind
    have hfind2 := find?_updateFirstGet
      (p := fun x : Folder => x.config.id == folder_id)
      (f := share_folder_push device_id)
      (fun a ha => ha) hl'
    refine ⟨share_folder_push device_id f, ?_, rfl, ?_, ?_⟩
    · cases submit with
      | ok u =>
        simp only [State.share_folder, hl']
        unfold InnerState.get_folder
        simp [hfind2]
      | error e =>
        simp only [State.share_folder, hl', State.set_error]
        unfold InnerState.get_folder
        simp [hfind2]
    · simp [share_folder_push, List.countP_append, List.countP_cons]
    · cases submit <;> simp [State.share_folder, hl']
  · cases hu : updateFirstGet (fun x => x.config.id == folder_id)
        (share_folder_push device_id) s.folders with
    | none => cases submit <;> simp [State.share_folder, hu]
    | some r => cases submit <;> simp [State.share_folder, hu, State.set_error]
  · intro h
    have hfind : s.folders.find? (fun x => x.config.id == folder_id) = none := by
      unfold InnerState.get_folder at h
      cases hf : s.folders.find? (fun x => x.config.id == folder_id) with
      | none => rfl
      | some f0 => rw [hf] at h; cases h
    have hu : updateFirstGet (fun x : Folder => x.config.id == folder_id)
        (share_folder_push device_id) s.folders = none :=
      updateFirstGet_eq_none.mpr hfind
    simp [State.share_folder, hu, State.set_error]

/-- Witness for C10 at `demo_state`: `dev1` is already in `f1`'s device
list, so sharing `f1` with `dev1` once more duplicates the entry;
`f9` is unknown. -/
theorem share_folder_appends_before_submit_witness :
    (∃ f2, (State.share_folder demo_state "f1" "dev1"
        (Except.error ⟨"boom"⟩)).state.get_folder "f1" = .ok f2 ∧
      f2.config.devices = demo_folder.config.devices ++
        [{ device_id := "dev1", introduced_by := "",
           encryption_password := "" }] ∧
      f2.config.devices.countP (fun fd => fd.device_id == "dev1") =
        demo_folder.config.devices.countP (fun fd => fd.device_id == "dev1") + 1 ∧
      (State.share_folder demo_state "f1" "dev1"
          (Except.error ⟨"boom"⟩)).calls = [GatewayCall.post_folder f2.config]) ∧
    (State.share_folder demo_state "f9" "dev1" (Except.ok ()) =
      { state := demo_state, calls := [], enqueued := [],
        reported := some AppError.UnknownFolder }) :=
  ⟨(share_folder_appends_before_submit demo_state "f1" "dev1"
      (Except.error ⟨"boom"⟩)).1 demo_folder rfl,
   (share_folder_appends_before_submit demo_state "f9" "dev1"
      (Except.ok ())).2.2 rfl⟩

/-- C1: the duplicate check of the add-folder path lives at the caller,
`App::handle_new_folder`: a folder whose ID already exists fails with
`DuplicateFolderID` and no gateway call is made, while a fresh ID is
submitted; the dispatcher `State::add_foler` submits the create request
and enqueues a `Configuration` reload exactly when the submission
succeeds. -/
theorem addFolder_duplicate_rejected_fresh_submitted
    (folders : List AppStateFolder) (error0 : Option AppError)
    (nf : TyFolder) (submit : Except GatewayErr Unit)
    (s : InnerState) (newf : NewFolderConfiguration) :
    ((∃ f, f ∈ folders ∧ f.id = nf.id) →
        App.handle_new_folder folders error0 nf submit =
          { error := some AppError.DuplicateFolderID, calls := [],
            rerenders := 0 }) ∧
    ((∀ f ∈ folders, f.id ≠ nf.id) →
        (App.handle_new_folder folders error0 nf submit).calls = [nf]) ∧
    ((State.add_foler s newf submit).calls = [GatewayCall.add_folder newf]) ∧
    (submit = .ok () →
        (State.add_foler s newf submit).enqueued = [Reload.Configuration]) := by
  refine ⟨?_, ?_, ?_, ?_⟩
  · intro hex
    have hany : folders.any (fun f => f.id == nf.id) = true := by
      rw [List.any_eq_true]
      obtain ⟨f, hf, he⟩ := hex
      exact ⟨f, hf, by simpa using he⟩
    simp [App.handle_new_folder, hany]
  · intro habs
    have hany : folders.any (fun f => f.id == nf.id) = false := by
      rw [List.any_eq_false]
      intro f hf
      simpa using habs f hf
    cases submit <;> simp [App.handle_new_folder, hany]
  · cases submit <;> rfl
  · intro hok
    subst hok
    rfl

/-- Witness for C1: `f1` already exists in `demo_app_folders` and is
rejected without a call; `f2` is fresh and gets posted; the dispatcher
run on a successful submission enqueues the `Configuration` reload. -/
theorem addFolder_duplicate_rejected_fresh_submitted_witness :
    (App.handle_new_folder demo_app_folders none demo_ty_folder (Except.ok ()) =
      { error := some AppError.DuplicateFolderID, calls := [], rerenders := 0 }) ∧
    ((App.handle_new_folder demo_app_folders none demo_ty_folder2
        (Except.ok ())).calls = [demo_ty_folder2]) ∧
    ((State.add_foler demo_state demo_new_folder (Except.ok ())).calls =
      [GatewayCall.add_folder demo_new_folder]) ∧
    ((State.add_foler demo_state demo_new_folder (Except.ok ())).enqueued =
      [Reload.Configuration]) :=
  ⟨(addFolder_duplicate_rejected_fresh_submitted demo_app_folders none
      demo_ty_folder (Except.ok ()) demo_state demo_new_folder).1 (by decide),
   (addFolder_duplicate_rejected_fresh_submitted demo_app_folders none
      demo_ty_folder2 (Except.ok ()) demo_state demo_new_folder).2.1 (by decide),
   (addFolder_duplicate_rejected_fresh_submitted demo_app_folders none
      demo_ty_folder2 (Except.ok ()) demo_state demo_new_folder).2.2.1,
   (addFolder_duplicate_rejected_fresh_submitted demo_app_folders none
      demo_ty_folder2 (Except.ok ()) demo_state demo_new_folder).2.2.2 rfl⟩

end Synctui
